import Mathlib

/-!
Verification of the proxy-rotation and download-orchestration layer of the
youtube_downloader repository (app/proxy_manager.py, app/tasks.py), as a
shallow embedding: pure functions are translated directly, stateful code is
explicit state passing, external effects (file system, subprocesses, network)
are supplied as explicit parameters.
-/

namespace YtDl

/-- State of the proxy manager: the working set, the rotation cursor, and the
content of the persisted snapshot file (the proxies list written by
save_proxies_to_file, when one was written). Mirrors ProxyManager.__init__
in app/proxy_manager.py. -/
structure PMState (P : Type) where
  working_proxies : List P
  current_proxy_index : Nat
  storage : Option (List P)
deriving DecidableEq

/-- The index actually used by get_next_proxy: the cursor is reset to 0 when
it is out of bounds (proxy_manager.py lines 218-220), otherwise used as is. -/
def clampIdx {P : Type} (l : List P) (i : Nat) : Nat :=
  if l.length ≤ i then 0 else i

/-- ProxyManager.get_next_proxy (proxy_manager.py lines 211-225): returns None
on an empty working set; otherwise returns the element at the (clamped)
cursor and advances the cursor by one modulo the set length. -/
def getNextProxy {P : Type} [Inhabited P] (s : PMState P) : Option P × PMState P :=
  if s.working_proxies.isEmpty then (none, s)
  else
    let idx := clampIdx s.working_proxies s.current_proxy_index
    (some (s.working_proxies.getD idx default),
      { s with current_proxy_index := (idx + 1) % s.working_proxies.length })

/-- Iterated get_next_proxy: the outputs handed out and the final state. -/
def runNext {P : Type} [Inhabited P] (s : PMState P) : Nat → List (Option P) × PMState P
  | 0 => ([], s)
  | k + 1 =>
    let step := getNextProxy s
    let rest := runNext step.2 k
    (step.1 :: rest.1, rest.2)

/-- Result of mark_proxy_failed: the new manager state and whether the
fire-and-forget refresh (asyncio.create_task of update_working_proxies) was
spawned. -/
structure EvictResult (P : Type) where
  state : PMState P
  refreshTriggered : Bool
deriving DecidableEq

/-- ProxyManager.mark_proxy_failed (proxy_manager.py lines 227-241): when the
proxy is in the working set it is removed (first occurrence, value match);
the storage file is rewritten with the remaining set only when that set is
non-empty; when the set became empty an asynchronous refresh is spawned
instead, recorded here as refreshTriggered. -/
def markProxyFailed {P : Type} [DecidableEq P] (s : PMState P) (p : P) : EvictResult P :=
  if p ∈ s.working_proxies then
    let remaining := s.working_proxies.erase p
    { state :=
        { working_proxies := remaining
          current_proxy_index := s.current_proxy_index
          storage := if remaining.isEmpty then s.storage else some remaining }
      refreshTriggered := remaining.isEmpty }
  else
    { state := s, refreshTriggered := false }

/-- The persisted snapshot file content: proxies plus the save timestamp
(save_proxies_to_file, proxy_manager.py lines 86-100). -/
structure SnapshotData (P : Type) where
  proxies : List P
  saved_at : Int
deriving DecidableEq

/-- ProxyManager.load_proxies_from_file (proxy_manager.py lines 102-124):
a missing or unreadable file yields []; a snapshot whose age exceeds 24 hours
yields []; otherwise the stored proxies. -/
def load_proxies_from_file {P : Type} (file : Option (SnapshotData P)) (now : Int) :
    List P :=
  match file with
  | none => []
  | some dat =>
    if now - dat.saved_at > 24 * 3600 then [] else dat.proxies

/-- Which path update_working_proxies took. -/
inductive RefreshOutcome (P : Type) where
  | usedSnapshot (proxies : List P)
  | apiEmpty
  | noneValidated
  | fetched (working : List P)
deriving DecidableEq

/-- ProxyManager.update_working_proxies (proxy_manager.py lines 171-209):
first try the saved snapshot; when it yields a non-empty list install it
(skipping validation) and reset the cursor; otherwise fetch candidates from
the API, keep those passing the liveness check, and persist and install them
when any survive; on an empty API answer or no survivor the state is left
unchanged. -/
def update_working_proxies {P : Type} (st : PMState P) (file : Option (SnapshotData P))
    (now : Int) (apiProxies : List P) (check : P → Bool) :
    PMState P × RefreshOutcome P :=
  let saved := load_proxies_from_file file now
  if saved.isEmpty then
    if apiProxies.isEmpty then (st, RefreshOutcome.apiEmpty)
    else
      let working := apiProxies.filter (fun p => check p)
      if working.isEmpty then (st, RefreshOutcome.noneValidated)
      else
        ({ working_proxies := working, current_proxy_index := 0,
           storage := some working },
          RefreshOutcome.fetched working)
  else
    ({ working_proxies := saved, current_proxy_index := 0, storage := st.storage },
      RefreshOutcome.usedSnapshot saved)

/-- The fixed authentication vocabulary of is_authentication_error
(app/tasks.py lines 90-102). -/
def auth_keywords : List String :=
  ["sign in to confirm", "please sign in", "authentication required",
   "login required", "cookies", "age verification", "age-restricted",
   "private video", "members-only", "premium content", "subscription required"]

/-- Python substring containment (needle in hay) on character lists. -/
def containsSub (hay needle : List Char) : Bool :=
  match hay with
  | [] => needle.isEmpty
  | c :: t => List.isPrefixOf needle (c :: t) || containsSub t needle

/-- is_authentication_error (app/tasks.py lines 88-105): lower-case the
message (character-wise, as Python str.lower does for this ASCII vocabulary)
and test whether any vocabulary keyword occurs as a substring. -/
def is_authentication_error (error_message : String) : Bool :=
  let error_lower := error_message.data.map Char.toLower
  auth_keywords.any (fun keyword => containsSub error_lower keyword.data)

/-- The client ordering of download_with_multiple_clients (app/tasks.py lines
149-155); cookiesUsable stands for the Python condition use_cookies and
cookies_path and os.path.exists(cookies_path). -/
def clients_order (cookiesUsable : Bool) : List String :=
  if cookiesUsable then
    ["mobile", "web", "ios", "mweb", "android", "tv_embedded", "tv"]
  else
    ["mobile", "web", "android", "ios", "tv_embedded", "mweb", "tv"]

/-- Outcome of one download_with_retry invocation. -/
inductive DlResult where
  | success (title : String) (duration : Nat)
  | failure (error : String) (error_type : String)
deriving DecidableEq

def DlResult.isSuccess : DlResult → Bool
  | DlResult.success _ _ => true
  | DlResult.failure _ _ => false

def DlResult.errorText : DlResult → String
  | DlResult.success _ _ => ""
  | DlResult.failure e _ => e

/-- The loop of download_with_multiple_clients (app/tasks.py lines 157-191):
try each client in order, return the first success, otherwise wrap the last
recorded error into an AllClientsFailed failure. -/
def sweepClients (attempt : String → DlResult) :
    List String → Option String → DlResult
  | [], lastError =>
    DlResult.failure
      ("Все клиенты не сработали. Последняя ошибка: " ++ lastError.getD "None")
      "AllClientsFailed"
  | client :: rest, _ =>
    match attempt client with
    | DlResult.success t d => DlResult.success t d
    | DlResult.failure e _ => sweepClients attempt rest (some e)

/-- download_with_multiple_clients (app/tasks.py lines 143-191); attempt is
the external downloader, a function of (use_cookies, client). -/
def download_with_multiple_clients (attempt : Bool → String → DlResult)
    (use_cookies cookiesFileExists : Bool) : DlResult :=
  sweepClients (attempt use_cookies)
    (clients_order (use_cookies && cookiesFileExists)) none

/-- Video metadata record returned by get_video_info. -/
structure VideoInfo where
  title : String
  duration : Nat
  uploader : String
  view_count : Nat
  upload_date : String
deriving DecidableEq

/-- The default metadata record of get_video_info (app/tasks.py lines 61-67). -/
def defaultVideoInfo : VideoInfo :=
  { title := "Unknown", duration := 0, uploader := "Unknown",
    view_count := 0, upload_date := "" }

/-- Fields of the JSON object emitted by the external tool, each possibly
absent. -/
structure RawInfo where
  title : Option String
  duration : Option Nat
  uploader : Option String
  view_count : Option Nat
  upload_date : Option String

/-- Outcome of the external-tool subprocess in get_video_info: either the
process completed with an exit code and captured streams, or the invocation
raised (timeout, missing binary, any exception). -/
inductive ExecOutcome where
  | completedProc (returncode : Int) (stdout : String) (stderr : String)
  | raised (msg : String)

/-- get_video_info (app/tasks.py lines 28-67): on exit code 0 parse the JSON
and extract the fields with per-field defaults; on a non-zero exit code,
unparsable output, or a raised invocation, return the default record.
parseJson models json.loads followed by field extraction. -/
def get_video_info (outcome : ExecOutcome) (parseJson : String → Option RawInfo) :
    VideoInfo :=
  match outcome with
  | ExecOutcome.raised _ => defaultVideoInfo
  | ExecOutcome.completedProc rc stdout _ =>
    if rc = 0 then
      match parseJson stdout with
      | none => defaultVideoInfo
      | some info =>
        { title := info.title.getD "Unknown"
          duration := info.duration.getD 0
          uploader := info.uploader.getD "Unknown"
          view_count := info.view_count.getD 0
          upload_date := info.upload_date.getD "" }
    else defaultVideoInfo

/-- Structured return value of download_video_task. -/
inductive TaskResult where
  | completed (file_name : String) (title : String) (youtube_id : String) (cached : Bool)
  | failed (error : String) (exc_type : String)
deriving DecidableEq

/-- Observable side effects of one download_video_task run: whether a proxy
was handed out by the pool, how many get_video_info calls were made, the
cookie mode of each full client sweep performed, and the final pool state. -/
structure Trace where
  proxyTaken : Bool
  infoCalls : Nat
  sweeps : List Bool
  finalPool : PMState String
deriving DecidableEq

/-- Environment of one download_video_task run: the task inputs together with
the behaviour of every external collaborator it consults. -/
structure TaskEnv where
  audio_only : Bool
  ffmpegAvailable : Bool
  pool : PMState String
  refreshedPool : PMState String
  youtube_id : String
  existingFile : Option String
  cookiesExist : Bool
  retryCookiesExist : Bool
  videoInfo : VideoInfo
  attempt : Bool → String → DlResult
  downloadedFile : Option String

/-- The Python condition of the except handler (app/tasks.py line 671):
"proxy" in str(e).lower() or "connection" in str(e).lower(). -/
def mentionsProxyOrConnection (e : String) : Bool :=
  containsSub (e.data.map Char.toLower) "proxy".data
    || containsSub (e.data.map Char.toLower) "connection".data

/-- The except branch of download_video_task (app/tasks.py lines 667-692):
evict the current proxy when the error text mentions proxy or connection,
then return the structured failure record. -/
def failTrace (e : String) (proxy_obj : Option String) (pool1 : PMState String)
    (sweeps : List Bool) : TaskResult × Trace :=
  let pool2 :=
    match proxy_obj with
    | some p =>
      if mentionsProxyOrConnection e then (markProxyFailed pool1 p).state else pool1
    | none => pool1
  (TaskResult.failed e "Exception",
   { proxyTaken := proxy_obj.isSome, infoCalls := 0, sweeps := sweeps,
     finalPool := pool2 })

/-- The sweep stage of download_video_task (app/tasks.py lines 549-610): a
first full client sweep whose cookie mode equals cookie-file availability,
then, exactly when that sweep failed with authentication-class error text
and cookies were not already enabled, one second full sweep with cookies
forced on. Returns the final sweep result and the cookie mode of each sweep
performed. -/
def sweepStage (env : TaskEnv) : DlResult × List Bool :=
  let r1 := download_with_multiple_clients env.attempt env.cookiesExist env.cookiesExist
  let escalate :=
    !r1.isSuccess && is_authentication_error r1.errorText && !env.cookiesExist
  if escalate then
    (download_with_multiple_clients env.attempt true env.retryCookiesExist,
      [env.cookiesExist, true])
  else (r1, [env.cookiesExist])

/-- download_video_task (app/tasks.py lines 386-692), shallow embedding of
its control flow. External effects are supplied through env: the result of
the pool refresh, the file-store lookups, the cookie-file probes and the
per-client downloader outcomes. In source order: the FFmpeg check, the
conditional pool refresh, the proxy hand-out, the local-file (cache) check,
the sweep stage, and the final success or structured-failure return through
the except handler. -/
def downloadVideoTask (env : TaskEnv) : TaskResult × Trace :=
  if env.audio_only && !env.ffmpegAvailable then
    (TaskResult.failed
      "FFmpeg не найден. Установите FFmpeg для конвертации аудио в MP3."
      "FFmpegNotFound",
     { proxyTaken := false, infoCalls := 0, sweeps := [], finalPool := env.pool })
  else
    let pool0 := if env.pool.working_proxies.isEmpty then env.refreshedPool else env.pool
    let step := getNextProxy pool0
    match env.existingFile with
    | some f =>
      (TaskResult.completed f env.videoInfo.title env.youtube_id true,
       { proxyTaken := step.1.isSome, infoCalls := 1, sweeps := [],
         finalPool := step.2 })
    | none =>
      let sw := sweepStage env
      match sw.1 with
      | DlResult.failure e _ => failTrace e step.1 step.2 sw.2
      | DlResult.success t _ =>
        match env.downloadedFile with
        | some f =>
          (TaskResult.completed f t env.youtube_id false,
           { proxyTaken := step.1.isSome, infoCalls := 0, sweeps := sw.2,
             finalPool := step.2 })
        | none =>
          failTrace ("Файл не найден после загрузки. YouTube ID: " ++ env.youtube_id)
            step.1 step.2 sw.2

section PoolLemmas

lemma clampIdx_lt {P : Type} {l : List P} (hl : l ≠ []) (i : Nat) :
    clampIdx l i < l.length := by
  unfold clampIdx
  split
  · exact List.length_pos.mpr hl
  · omega

lemma clampIdx_idem {P : Type} {l : List P} (hl : l ≠ []) (i : Nat) :
    clampIdx l (clampIdx l i) = clampIdx l i := by
  have hpos : 0 < l.length := List.length_pos.mpr hl
  unfold clampIdx
  by_cases h : l.length ≤ i
  · simp [h, Nat.not_le.mpr hpos]
  · simp [h]

variable {P : Type} [Inhabited P]

lemma getNextProxy_of_ne {l : List P} (hl : l ≠ []) (i : Nat) (st : Option (List P)) :
    getNextProxy ⟨l, i, st⟩ =
      (some (l.getD (clampIdx l i) default),
        ⟨l, (clampIdx l i + 1) % l.length, st⟩) := by
  unfold getNextProxy
  simp [List.isEmpty_iff, hl]

lemma getNextProxy_clamp {l : List P} (hl : l ≠ []) (i : Nat) (st : Option (List P)) :
    getNextProxy ⟨l, i, st⟩ = getNextProxy ⟨l, clampIdx l i, st⟩ := by
  rw [getNextProxy_of_ne hl, getNextProxy_of_ne hl, clampIdx_idem hl]

lemma runNext_empty (i : Nat) (st : Option (List P)) (k : Nat) :
    runNext (⟨[], i, st⟩ : PMState P) k = (List.replicate k none, ⟨[], i, st⟩) := by
  induction k with
  | zero => rfl
  | succ k ih =>
    have hstep : getNextProxy (⟨[], i, st⟩ : PMState P) = (none, ⟨[], i, st⟩) := by
      unfold getNextProxy
      simp
    simp [runNext, hstep, ih, List.replicate_succ]

lemma runNext_seg (l : List P) (st : Option (List P)) :
    ∀ (k i : Nat), i < l.length → i + k ≤ l.length →
      runNext ⟨l, i, st⟩ k =
        (((l.drop i).take k).map some, ⟨l, (i + k) % l.length, st⟩) := by
  intro k
  induction k with
  | zero =>
    intro i hi _
    simp [runNext, Nat.mod_eq_of_lt hi]
  | succ k ih =>
    intro i hi hik
    have hl : l ≠ [] := List.length_pos.mp (Nat.lt_of_le_of_lt (Nat.zero_le i) hi)
    have hclamp : clampIdx l i = i := by
      unfold clampIdx
      simp [Nat.not_le.mpr hi]
    have hdrop : l.drop i = l[i] :: l.drop (i + 1) := List.drop_eq_getElem_cons hi
    have hget : l.getD i default = l[i] := by
      rw [List.getD_eq_getElem?_getD, List.getElem?_eq_getElem hi]
      rfl
    rcases Nat.lt_or_ge (i + 1) l.length with hsucc | hsucc
    · have hmod : (i + 1) % l.length = i + 1 := Nat.mod_eq_of_lt hsucc
      have hrec := ih (i + 1) hsucc (by omega)
      have harith : i + 1 + k = i + (k + 1) := by omega
      simp only [runNext, getNextProxy_of_ne hl, hclamp, hmod, hrec, hget, harith]
      rw [hdrop, List.take_succ_cons, List.map_cons]
    · have hlen : i + 1 = l.length := by omega
      have hk0 : k = 0 := by omega
      subst hk0
      have hmod : (i + 1) % l.length = 0 := by
        rw [hlen, Nat.mod_self]
      simp only [runNext, getNextProxy_of_ne hl, hclamp, hmod, hget]
      rw [hdrop, List.take_succ_cons, List.map_cons]
      simp

lemma runNext_add (a b : Nat) :
    ∀ s : PMState P,
      runNext s (a + b) =
        ((runNext s a).1 ++ (runNext (runNext s a).2 b).1,
          (runNext (runNext s a).2 b).2) := by
  induction a with
  | zero => intro s; simp [runNext]
  | succ a ih =>
    intro s
    have h : a + 1 + b = (a + b) + 1 := by omega
    rw [h]
    simp only [runNext, ih (getNextProxy s).2, List.cons_append]

lemma runNext_rot (l : List P) (st : Option (List P)) (i : Nat) (hi : i < l.length) :
    runNext ⟨l, i, st⟩ l.length = ((l.rotate i).map some, ⟨l, i, st⟩) := by
  have hsplit : l.length = (l.length - i) + i := by omega
  rw [hsplit, runNext_add]
  have h1 := runNext_seg l st (l.length - i) i hi (by omega)
  have hdroplen : (l.drop i).length = l.length - i := List.length_drop i l
  have hdropfull : (l.drop i).take (l.length - i) = l.drop i := by
    rw [← hdroplen]
    exact List.take_length (l.drop i)
  have hmod0 : (i + (l.length - i)) % l.length = 0 := by
    have : i + (l.length - i) = l.length := by omega
    rw [this, Nat.mod_self]
  rw [h1, hdropfull, hmod0]
  have h2 := runNext_seg l st i 0 (by omega) (by omega)
  have hmodi : (0 + i) % l.length = i := by
    rw [Nat.zero_add, Nat.mod_eq_of_lt hi]
  rw [h2, hmodi]
  simp only [List.drop_zero]
  rw [← List.map_append, ← List.rotate_eq_drop_append_take (Nat.le_of_lt hi)]

lemma runNext_fst_clamp (l : List P) (i : Nat) (st : Option (List P)) (k : Nat) :
    (runNext ⟨l, i, st⟩ k).1 = (runNext ⟨l, clampIdx l i, st⟩ k).1 := by
  by_cases hl : l = []
  · subst hl
    rw [runNext_empty, runNext_empty]
  · cases k with
    | zero => rfl
    | succ k =>
      simp only [runNext]
      rw [getNextProxy_clamp hl]

lemma getNextProxy_head (l : List P) (hl : l ≠ []) (st : Option (List P)) :
    (getNextProxy ⟨l, 0, st⟩).1 = l.head? := by
  rw [getNextProxy_of_ne hl]
  have h0 : clampIdx l 0 = 0 := by
    unfold clampIdx
    simp [Nat.not_le.mpr (List.length_pos.mpr hl)]
  rw [h0]
  match l, hl with
  | a :: t, _ => rfl

lemma count_some_map {P : Type} [DecidableEq P] (l : List P) (q : P) :
    List.count (some q) (l.map some) = List.count q l := by
  induction l with
  | nil => rfl
  | cons a t ih =>
    simp only [List.map_cons, List.count_cons, ih]
    congr 1

end PoolLemmas

/-- C1: Round-robin fairness: for every non-empty working set ps with the
rotation cursor at 0, ps.length consecutive get_next_proxy calls return
exactly the proxies of ps in list order (hence each exactly once), the
following call returns the first proxy again, and every call on a non-empty
set with an in-bounds cursor advances the cursor by one position modulo the
set length. -/
theorem c1_round_robin {P : Type} [Inhabited P] (ps : List P) (st : Option (List P))
    (hne : ps ≠ []) :
    (runNext ⟨ps, 0, st⟩ ps.length).1 = ps.map some
  ∧ (getNextProxy (runNext ⟨ps, 0, st⟩ ps.length).2).1 = ps.head?
  ∧ ∀ t : PMState P, t.working_proxies ≠ [] →
      t.current_proxy_index < t.working_proxies.length →
      (getNextProxy t).2.current_proxy_index =
        (t.current_proxy_index + 1) % t.working_proxies.length := by
  have hpos : 0 < ps.length := List.length_pos.mpr hne
  have hrot := runNext_rot ps st 0 hpos
  refine ⟨?_, ?_, ?_⟩
  · rw [hrot]
    simp [List.rotate_zero]
  · rw [hrot]
    exact getNextProxy_head ps hne st
  · intro t ht hidx
    obtain ⟨l, i, st2⟩ := t
    have hl : l ≠ [] := ht
    have hlt : i < l.length := hidx
    have hclamp : clampIdx l i = i := by
      unfold clampIdx
      simp [Nat.not_le.mpr hlt]
    rw [getNextProxy_of_ne hl, hclamp]

/-- C1 witness at the concrete set [10, 20, 30]. -/
theorem c1_round_robin_witness :
    (([10, 20, 30] : List Nat) ≠ [])
  ∧ (runNext (⟨[10, 20, 30], 0, none⟩ : PMState Nat) ([10, 20, 30] : List Nat).length).1
      = ([10, 20, 30] : List Nat).map some :=
  ⟨by decide, (c1_round_robin [10, 20, 30] none (by decide)).1⟩

/-- C2: evicting (mark_proxy_failed) a proxy that is not at the current
in-bounds cursor position leaves a rotation in which every remaining proxy is
returned exactly once over the next (N-1) get_next_proxy calls (no proxy
skipped or returned twice), and get_next_proxy clamps the cursor to 0 before
use exactly when it is out of bounds: an in-bounds cursor is used as is. -/
theorem c2_eviction_rotation {P : Type} [Inhabited P] [DecidableEq P]
    (ps : List P) (i : Nat) (st : Option (List P)) (p : P)
    (hnd : ps.Nodup) (hi : i < ps.length) (hp : p ∈ ps)
    (hcur : ps.getD i default ≠ p) :
    (∀ q ∈ ps.erase p,
        ((runNext (markProxyFailed ⟨ps, i, st⟩ p).state (ps.erase p).length).1.count
          (some q)) = 1)
  ∧ (∀ t : PMState P, t.current_proxy_index < t.working_proxies.length →
      (getNextProxy t).1 = some (t.working_proxies.getD t.current_proxy_index default))
  ∧ (∀ t : PMState P, t.working_proxies ≠ [] →
      t.working_proxies.length ≤ t.current_proxy_index →
      (getNextProxy t).1 = some (t.working_proxies.getD 0 default)) := by
  have hgi : ps.getD i default = ps[i] := by
    rw [List.getD_eq_getElem?_getD, List.getElem?_eq_getElem hi]
    rfl
  have hmem : ps[i] ∈ ps.erase p := by
    refine (List.mem_erase_of_ne ?_).mpr (List.getElem_mem hi)
    rw [← hgi]
    exact hcur
  have hl' : ps.erase p ≠ [] := List.ne_nil_of_mem hmem
  have hstate : (markProxyFailed ⟨ps, i, st⟩ p).state =
      ⟨ps.erase p, i, if (ps.erase p).isEmpty then st else some (ps.erase p)⟩ := by
    unfold markProxyFailed
    simp [hp]
  refine ⟨?_, ?_, ?_⟩
  · intro q hq
    rw [hstate, runNext_fst_clamp]
    rw [runNext_rot (ps.erase p)
          (if (ps.erase p).isEmpty then st else some (ps.erase p))
          (clampIdx (ps.erase p) i) (clampIdx_lt hl' i)]
    dsimp only
    calc List.count (some q) (List.map some ((ps.erase p).rotate (clampIdx (ps.erase p) i)))
        = List.count q ((ps.erase p).rotate (clampIdx (ps.erase p) i)) :=
          count_some_map _ q
      _ = List.count q (ps.erase p) :=
          List.Perm.count_eq (List.rotate_perm (ps.erase p) (clampIdx (ps.erase p) i)) q
      _ = 1 := List.count_eq_one_of_mem (hnd.erase p) hq
  · intro t hidx
    obtain ⟨l, j, st2⟩ := t
    have hl : l ≠ [] := by
      intro h
      subst h
      exact Nat.not_lt_zero _ hidx
    have hclamp : clampIdx l j = j := by
      unfold clampIdx
      simp [Nat.not_le.mpr hidx]
    rw [getNextProxy_of_ne hl, hclamp]
  · intro t ht hge
    obtain ⟨l, j, st2⟩ := t
    have hl : l ≠ [] := ht
    have hclamp : clampIdx l j = 0 := by
      unfold clampIdx
      simp [hge]
    rw [getNextProxy_of_ne hl, hclamp]

/-- C2 witness at the set [1, 2, 3], cursor 0, evicting 3 (not at cursor). -/
theorem c2_eviction_rotation_witness :
    ([1, 2, 3] : List Nat).Nodup
  ∧ 0 < ([1, 2, 3] : List Nat).length
  ∧ (3 : Nat) ∈ ([1, 2, 3] : List Nat)
  ∧ ([1, 2, 3] : List Nat).getD 0 default ≠ 3
  ∧ ∀ q ∈ ([1, 2, 3] : List Nat).erase 3,
      ((runNext (markProxyFailed (⟨[1, 2, 3], 0, none⟩ : PMState Nat) 3).state
          (([1, 2, 3] : List Nat).erase 3).length).1.count (some q)) = 1 :=
  ⟨by decide, by decide, by decide, by decide,
    (c2_eviction_rotation [1, 2, 3] 0 none 3 (by decide) (by decide) (by decide)
      (by decide)).1⟩

/-- C5 counterexample: evicting the last proxy empties the working set, yet
persisted storage keeps its previous content instead of being rewritten with
the reduced (empty) set, contrary to the claim. -/
theorem c5_evict_counterexample :
    (markProxyFailed (⟨["p1"], 0, some ["p1"]⟩ : PMState String) "p1").state.working_proxies = []
  ∧ (markProxyFailed (⟨["p1"], 0, some ["p1"]⟩ : PMState String) "p1").state.storage
      ≠ some ([] : List String)
  ∧ (markProxyFailed (⟨["p1"], 0, some ["p1"]⟩ : PMState String) "p1").state.storage
      = some ["p1"] := by
  refine ⟨rfl, ?_, rfl⟩
  decide

/-- C5 (amended): mark_proxy_failed on a present proxy removes it by value
match; it rewrites persisted storage with the reduced set exactly when that
set is non-empty; when the set becomes empty, storage is left untouched and
the asynchronous refresh is triggered instead (and only then). -/
theorem c5_evict_persistence {P : Type} [DecidableEq P] (s : PMState P) (p : P)
    (hp : p ∈ s.working_proxies) :
    (markProxyFailed s p).state.working_proxies = s.working_proxies.erase p
  ∧ ((markProxyFailed s p).state.working_proxies ≠ [] →
      (markProxyFailed s p).state.storage = some (s.working_proxies.erase p)
      ∧ (markProxyFailed s p).refreshTriggered = false)
  ∧ ((markProxyFailed s p).state.working_proxies = [] →
      (markProxyFailed s p).state.storage = s.storage
      ∧ (markProxyFailed s p).refreshTriggered = true) := by
  have hrec : markProxyFailed s p =
      { state :=
          { working_proxies := s.working_proxies.erase p
            current_proxy_index := s.current_proxy_index
            storage := if (s.working_proxies.erase p).isEmpty then s.storage
                       else some (s.working_proxies.erase p) }
        refreshTriggered := (s.working_proxies.erase p).isEmpty } := by
    unfold markProxyFailed
    rw [if_pos hp]
  rw [hrec]
  by_cases h : (s.working_proxies.erase p).isEmpty
  · have hnil : s.working_proxies.erase p = [] := List.isEmpty_iff.mp h
    refine ⟨rfl, ?_, ?_⟩
    · intro hne
      exact absurd hnil hne
    · intro _
      simp [h]
  · have hne : s.working_proxies.erase p ≠ [] := by
      intro hnil
      exact h (List.isEmpty_iff.mpr hnil)
    refine ⟨rfl, ?_, ?_⟩
    · intro _
      simp [h]
    · intro hnil
      exact absurd hnil hne

/-- C5 witness: evicting "a" from the set ["a", "b"]. -/
theorem c5_evict_persistence_witness :
    ("a" ∈ (["a", "b"] : List String))
  ∧ (markProxyFailed (⟨["a", "b"], 0, none⟩ : PMState String) "a").state.working_proxies
      = (["a", "b"] : List String).erase "a" :=
  ⟨by decide, (c5_evict_persistence ⟨["a", "b"], 0, none⟩ "a" (by decide)).1⟩

/-- C8: the client-strategy selection is a total function of cookie
availability alone, returning the fixed ordering A when cookies are usable
and the fixed, different ordering B otherwise; both orderings are
non-empty. -/
theorem c8_strategy_ordering :
    clients_order true = ["mobile", "web", "ios", "mweb", "android", "tv_embedded", "tv"]
  ∧ clients_order false = ["mobile", "web", "android", "ios", "tv_embedded", "mweb", "tv"]
  ∧ clients_order true ≠ clients_order false
  ∧ ∀ b : Bool, clients_order b ≠ [] := by
  refine ⟨rfl, rfl, by decide, ?_⟩
  intro b
  cases b <;> decide

/-- C9 counterexample: a snapshot whose save timestamp is exactly 24 hours
old is not under 24 hours old, yet update_working_proxies still uses it. -/
theorem c9_staleness_counterexample :
    (update_working_proxies (⟨[], 0, none⟩ : PMState String) (some ⟨["p1"], 0⟩) 86400 []
        (fun _ => false)).2 = RefreshOutcome.usedSnapshot ["p1"]
  ∧ ¬((86400 : Int) - 0 < 24 * 3600) := by
  refine ⟨rfl, by decide⟩

/-- C9 (amended): update_working_proxies installs the persisted snapshot,
skipping per-proxy validation, exactly when the snapshot exists, its proxy
list is non-empty, and its age is at most 24 hours; a snapshot strictly
older than 24 hours is ignored and the run behaves exactly as if no snapshot
existed (fresh fetch-and-validation cycle). -/
theorem c9_staleness {P : Type} (st : PMState P) (file : Option (SnapshotData P))
    (now : Int) (api : List P) (check : P → Bool) :
    (∀ dat : SnapshotData P, file = some dat → now - dat.saved_at ≤ 24 * 3600 →
        dat.proxies ≠ [] →
        update_working_proxies st file now api check =
          ({ working_proxies := dat.proxies, current_proxy_index := 0,
             storage := st.storage },
            RefreshOutcome.usedSnapshot dat.proxies))
  ∧ (∀ dat : SnapshotData P, file = some dat → now - dat.saved_at > 24 * 3600 →
        update_working_proxies st file now api check =
          update_working_proxies st none now api check)
  ∧ (∀ ps : List P,
        (update_working_proxies st file now api check).2 = RefreshOutcome.usedSnapshot ps →
        ps ≠ [] ∧ ∃ dat : SnapshotData P, file = some dat
          ∧ now - dat.saved_at ≤ 24 * 3600 ∧ ps = dat.proxies) := by
  refine ⟨?_, ?_, ?_⟩
  · intro dat hfile hage hne
    subst hfile
    simp only [update_working_proxies, load_proxies_from_file]
    have hstale : ¬(now - dat.saved_at > 24 * 3600) := by omega
    rw [if_neg hstale]
    simp [List.isEmpty_iff, hne]
  · intro dat hfile hage
    subst hfile
    simp only [update_working_proxies, load_proxies_from_file]
    rw [if_pos hage]
  · intro ps hused
    cases hfile : file with
    | none =>
      subst hfile
      simp only [update_working_proxies, load_proxies_from_file] at hused
      by_cases hapi : api.isEmpty
      · simp [hapi] at hused
      · by_cases hw : (api.filter (fun p => check p)).isEmpty
        · simp [hapi, hw] at hused
        · simp [hapi, hw] at hused
    | some dat =>
      subst hfile
      simp only [update_working_proxies, load_proxies_from_file] at hused
      by_cases hage : now - dat.saved_at > 24 * 3600
      · rw [if_pos hage] at hused
        by_cases hapi : api.isEmpty
        · simp [hapi] at hused
        · by_cases hw : (api.filter (fun p => check p)).isEmpty
          · simp [hapi, hw] at hused
          · simp [hapi, hw] at hused
      · rw [if_neg hage] at hused
        by_cases hne : dat.proxies.isEmpty
        · by_cases hapi : api.isEmpty
          · simp [hne, hapi] at hused
          · by_cases hw : (api.filter (fun p => check p)).isEmpty
            · simp [hne, hapi, hw] at hused
            · simp [hne, hapi, hw] at hused
        · simp only [hne, Bool.false_eq_true, if_false] at hused
          have hps : ps = dat.proxies := by
            simp [List.isEmpty_iff] at hne
            simp [hne] at hused
            exact hused.symm
          subst hps
          refine ⟨?_, dat, rfl, by omega, rfl⟩
          intro hnil
          rw [hnil] at hne
          simp at hne

/-- C9 witness: a 100-second-old snapshot holding ["p"] is installed. -/
theorem c9_staleness_witness :
    ((some (⟨["p"], 0⟩ : SnapshotData String)) = some (⟨["p"], 0⟩ : SnapshotData String))
  ∧ ((100 : Int) - 0 ≤ 24 * 3600)
  ∧ ((["p"] : List String) ≠ [])
  ∧ update_working_proxies (⟨[], 0, none⟩ : PMState String) (some ⟨["p"], 0⟩) 100 []
      (fun _ => false) =
      ({ working_proxies := ["p"], current_proxy_index := 0, storage := none },
        RefreshOutcome.usedSnapshot ["p"]) :=
  ⟨rfl, by decide, by decide,
    (c9_staleness (⟨[], 0, none⟩ : PMState String) (some ⟨["p"], 0⟩) 100 []
      (fun _ => false)).1 ⟨["p"], 0⟩ rfl (by decide) (by decide)⟩

/-- C10: get_video_info is total at its interface: whenever the external
invocation raised, exited non-zero, or produced unparsable output, it
returns the default metadata record (title Unknown, duration 0, uploader
Unknown, view_count 0, empty upload_date) instead of raising. -/
theorem c10_video_info_default (outcome : ExecOutcome)
    (parseJson : String → Option RawInfo)
    (h : ∀ rc stdout stderr, outcome = ExecOutcome.completedProc rc stdout stderr →
        rc ≠ 0 ∨ parseJson stdout = none) :
    get_video_info outcome parseJson = defaultVideoInfo := by
  cases outcome with
  | raised msg => rfl
  | completedProc rc stdout stderr =>
    simp only [get_video_info]
    rcases h rc stdout stderr rfl with hrc | hp
    · rw [if_neg hrc]
    · by_cases hrc : rc = 0
      · rw [if_pos hrc, hp]
      · rw [if_neg hrc]

/-- C10 witness: a non-zero exit code with unparsable output. -/
theorem c10_video_info_default_witness :
    (∀ rc stdout stderr,
        ExecOutcome.completedProc 1 "bad output" "err"
          = ExecOutcome.completedProc rc stdout stderr →
        rc ≠ 0 ∨ (fun _ => (none : Option RawInfo)) stdout = none)
  ∧ get_video_info (ExecOutcome.completedProc 1 "bad output" "err") (fun _ => none)
      = defaultVideoInfo :=
  ⟨fun _ _ _ _ => Or.inr rfl,
    c10_video_info_default (ExecOutcome.completedProc 1 "bad output" "err")
      (fun _ => none) (fun _ _ _ _ => Or.inr rfl)⟩

/-- Python substring containment agrees with the list-infix relation. -/
lemma containsSub_infix_iff (nd : List Char) :
    ∀ hay : List Char, containsSub hay nd = true ↔ nd <:+: hay := by
  intro hay
  induction hay with
  | nil =>
    simp [containsSub, List.isEmpty_iff]
  | cons c t ih =>
    simp only [containsSub, Bool.or_eq_true, ih]
    rw [List.infix_cons_iff]
    constructor
    · rintro (h | h)
      · exact Or.inl (List.isPrefixOf_iff_prefix.mp h)
      · exact Or.inr h
    · rintro (h | h)
      · exact Or.inl (List.isPrefixOf_iff_prefix.mpr h)
      · exact Or.inr h

/-- C7: is_authentication_error is a pure total Boolean function of its
input text: it returns true exactly when some keyword of the fixed
authentication vocabulary occurs as a substring of the lower-cased text; in
particular the vocabulary contains all the keywords named by the claim. -/
theorem c7_auth_classifier :
    (∀ s : String, is_authentication_error s = true ↔
        ∃ k ∈ auth_keywords, k.data <:+: s.data.map Char.toLower)
  ∧ "sign in to confirm" ∈ auth_keywords
  ∧ "cookies" ∈ auth_keywords
  ∧ "age-restricted" ∈ auth_keywords
  ∧ "members-only" ∈ auth_keywords
  ∧ "subscription required" ∈ auth_keywords
  ∧ "private video" ∈ auth_keywords
  ∧ "login required" ∈ auth_keywords := by
  refine ⟨?_, by decide, by decide, by decide, by decide, by decide, by decide, by decide⟩
  intro s
  simp only [is_authentication_error, List.any_eq_true]
  constructor
  · rintro ⟨k, hk, hc⟩
    exact ⟨k, hk, (containsSub_infix_iff k.data _).mp hc⟩
  · rintro ⟨k, hk, hc⟩
    exact ⟨k, hk, (containsSub_infix_iff k.data _).mpr hc⟩

/-- The escalation guard of the sweep stage, written as a proposition. -/
lemma escalate_iff (r1 : DlResult) (c : Bool) :
    (!r1.isSuccess && is_authentication_error r1.errorText && !c) = true ↔
      (r1.isSuccess = false ∧ is_authentication_error r1.errorText = true ∧ c = false) := by
  constructor
  · intro h
    simp only [Bool.and_eq_true, Bool.not_eq_true'] at h
    exact ⟨h.1.1, h.1.2, h.2⟩
  · intro h
    simp only [Bool.and_eq_true, Bool.not_eq_true']
    exact ⟨⟨h.1, h.2.1⟩, h.2.2⟩

/-- The sweep stage performs either one sweep or two. -/
lemma sweepStage_snd (env : TaskEnv) :
    (sweepStage env).2 = [env.cookiesExist]
  ∨ (sweepStage env).2 = [env.cookiesExist, true] := by
  simp only [sweepStage]
  split
  · right
    rfl
  · left
    rfl

/-- Past the FFmpeg guard and with no cached artifact, the sweeps recorded by
the task are exactly those of the sweep stage. -/
lemma task_sweeps (env : TaskEnv)
    (hff : (env.audio_only && !env.ffmpegAvailable) = false)
    (hex : env.existingFile = none) :
    (downloadVideoTask env).2.sweeps = (sweepStage env).2 := by
  unfold downloadVideoTask
  rw [hff]
  simp only [Bool.false_eq_true, if_false, hex]
  cases h : (sweepStage env).1 with
  | success t d =>
    cases hdf : env.downloadedFile with
    | none => simp [h, hdf, failTrace]
    | some f => simp [h, hdf]
  | failure e et => simp [h, failTrace]

/-- Concrete environment for C3: the artifact for the request is already in
the file store, and the pool holds one working proxy. -/
def c3Env : TaskEnv :=
  { audio_only := false
    ffmpegAvailable := true
    pool := ⟨["proxyA"], 0, none⟩
    refreshedPool := ⟨[], 0, none⟩
    youtube_id := "abc12345678"
    existingFile := some "abc12345678.mp4"
    cookiesExist := false
    retryCookiesExist := false
    videoInfo := { title := "T", duration := 10, uploader := "U",
                   view_count := 5, upload_date := "20240101" }
    attempt := fun _ _ => DlResult.failure "e" "YtDlpError"
    downloadedFile := none }

/-- C3 counterexample: with the artifact already present, the task does
return a cached success, but it has already taken a proxy from the pool and
it performs one external metadata invocation (get_video_info), contrary to
the claim that the cached return takes no proxy and makes no external-tool
invocation. -/
theorem c3_cached_counterexample :
    (downloadVideoTask c3Env).1
      = TaskResult.completed "abc12345678.mp4" "T" "abc12345678" true
  ∧ (downloadVideoTask c3Env).2.proxyTaken = true
  ∧ (downloadVideoTask c3Env).2.infoCalls = 1 :=
  ⟨rfl, rfl, rfl⟩

/-- C3 (amended): when the artifact already exists in the file store the
task returns a cached success with the same artifact identifier and performs
no download sweep (the external downloader is never invoked for the
download), although a proxy has already been requested from the pool and one
external metadata query is made. Hence a second call on the same source URL
performs the external download invocation zero times. -/
theorem c3_cached_short_circuit (env : TaskEnv) (f : String)
    (hff : env.audio_only = false ∨ env.ffmpegAvailable = true)
    (hex : env.existingFile = some f) :
    (downloadVideoTask env).1
      = TaskResult.completed f env.videoInfo.title env.youtube_id true
  ∧ (downloadVideoTask env).2.sweeps = []
  ∧ (downloadVideoTask env).2.infoCalls = 1 := by
  have hguard : (env.audio_only && !env.ffmpegAvailable) = false := by
    rcases hff with h | h <;> simp [h]
  unfold downloadVideoTask
  rw [hguard]
  simp [hex]

/-- C3 witness at the concrete environment. -/
theorem c3_cached_short_circuit_witness :
    (c3Env.audio_only = false ∨ c3Env.ffmpegAvailable = true)
  ∧ c3Env.existingFile = some "abc12345678.mp4"
  ∧ (downloadVideoTask c3Env).2.sweeps = [] :=
  ⟨Or.inl rfl, rfl,
    (c3_cached_short_circuit c3Env "abc12345678.mp4" (Or.inl rfl) rfl).2.1⟩

/-- Concrete environment for C4: no cookie file is available anywhere and
every downloader attempt fails with the sign-in bot-check text. -/
def c4Env : TaskEnv :=
  { audio_only := false
    ffmpegAvailable := true
    pool := ⟨[], 0, none⟩
    refreshedPool := ⟨[], 0, none⟩
    youtube_id := "vid00000001"
    existingFile := none
    cookiesExist := false
    retryCookiesExist := false
    videoInfo := defaultVideoInfo
    attempt := fun _ _ =>
      DlResult.failure "Please sign in to confirm you're not a bot" "YtDlpError"
    downloadedFile := none }

/-- C4 counterexample: with no cookie file available at all, an
authentication-class first-sweep failure still triggers the second,
cookie-enabled sweep, contradicting the claim that cookie-file availability
is a necessary condition for the escalation. -/
theorem c4_escalation_counterexample :
    (downloadVideoTask c4Env).2.sweeps = [false, true]
  ∧ c4Env.cookiesExist = false
  ∧ c4Env.retryCookiesExist = false :=
  ⟨rfl, rfl, rfl⟩

/-- C4 (amended): past the FFmpeg guard and with no cached artifact, the
second cookie-enabled sweep is performed exactly when the first sweep
failed, its recorded failure text is authentication-class, and cookies were
not already enabled in the first sweep (equivalently: no cookie file was
found; availability of one is not required); at most two sweeps ever run;
the text "HTTP 500 server error" is not authentication-class while "Please
sign in to confirm you're not a bot" is. -/
theorem c4_escalation_iff (env : TaskEnv)
    (hff : env.audio_only = false ∨ env.ffmpegAvailable = true)
    (hex : env.existingFile = none) :
    ((downloadVideoTask env).2.sweeps = [env.cookiesExist, true] ↔
        ((download_with_multiple_clients env.attempt env.cookiesExist
            env.cookiesExist).isSuccess = false
          ∧ is_authentication_error
              (download_with_multiple_clients env.attempt env.cookiesExist
                env.cookiesExist).errorText = true
          ∧ env.cookiesExist = false))
  ∧ ((downloadVideoTask env).2.sweeps = [env.cookiesExist]
      ∨ (downloadVideoTask env).2.sweeps = [env.cookiesExist, true])
  ∧ is_authentication_error "HTTP 500 server error" = false
  ∧ is_authentication_error "Please sign in to confirm you're not a bot" = true := by
  have hguard : (env.audio_only && !env.ffmpegAvailable) = false := by
    rcases hff with h | h <;> simp [h]
  have hsw := task_sweeps env hguard hex
  refine ⟨?_, ?_, by decide, by decide⟩
  · rw [hsw]
    simp only [sweepStage]
    by_cases hesc :
        (!(download_with_multiple_clients env.attempt env.cookiesExist
            env.cookiesExist).isSuccess
          && is_authentication_error
              (download_with_multiple_clients env.attempt env.cookiesExist
                env.cookiesExist).errorText
          && !env.cookiesExist) = true
    · rw [if_pos hesc]
      constructor
      · intro _
        exact (escalate_iff _ _).mp hesc
      · intro _
        rfl
    · rw [if_neg hesc]
      constructor
      · intro h
        dsimp only at h
        simp at h
      · intro h
        exact absurd ((escalate_iff _ _).mpr h) hesc
  · rw [hsw]
    exact sweepStage_snd env

/-- C4 witness at the concrete environment. -/
theorem c4_escalation_iff_witness :
    (c4Env.audio_only = false ∨ c4Env.ffmpegAvailable = true)
  ∧ c4Env.existingFile = none
  ∧ ((downloadVideoTask c4Env).2.sweeps = [c4Env.cookiesExist]
      ∨ (downloadVideoTask c4Env).2.sweeps = [c4Env.cookiesExist, true]) :=
  ⟨Or.inl rfl, rfl, (c4_escalation_iff c4Env (Or.inl rfl) rfl).2.1⟩

/-- Concrete environment for C6: the pool holds exactly one proxy and every
downloader attempt fails with text mentioning the proxy. -/
def c6Env : TaskEnv :=
  { audio_only := false
    ffmpegAvailable := true
    pool := ⟨["p1"], 0, some ["p1"]⟩
    refreshedPool := ⟨[], 0, none⟩
    youtube_id := "vid00000002"
    existingFile := none
    cookiesExist := false
    retryCookiesExist := false
    videoInfo := defaultVideoInfo
    attempt := fun _ _ => DlResult.failure "proxy connection refused" "YtDlpError"
    downloadedFile := none }

/-- C6, evaluation at the failing input: on a proxy-class failure while the
last working proxy is in use, the except handler of download_video_task
reaches mark_proxy_failed, which empties the working set and therefore
executes the asyncio.create_task call (proxy_manager.py line 241) to spawn
the refresh — in the synchronous Celery worker there is no running event
loop there, so that call raises RuntimeError, which the inner handler (it
catches only UnboundLocalError and NameError) does not stop; the modelled
control flow below shows this input does take that path. -/
theorem c6_structured_failure_eval :
    (downloadVideoTask c6Env).1
      = TaskResult.failed
          "Все клиенты не сработали. Последняя ошибка: proxy connection refused"
          "Exception"
  ∧ (downloadVideoTask c6Env).2.finalPool.working_proxies = []
  ∧ (markProxyFailed (getNextProxy c6Env.pool).2 "p1").refreshTriggered = true :=
  ⟨rfl, rfl, rfl⟩

end YtDl
